import Mathlib

/-!
Verification of the HeliumSCHA potential adapter
(src/potential/helium_ensemble.py) against its specification.

The development has two parts:

1. A model of the module top level (lines 1-24): the import statements and
   the try/except block that loads the optional Julia kernel bridge.  The
   block is embedded as a list of logical source lines (indentation level
   plus whether the line opens a suite), together with a checker for the
   CPython indentation rules, so that the import-time behaviour of the
   module can be settled.

2. A model of the class HeliumEnsemble (lines 29-44): the ensemble state
   is a structure of the fields the adapter touches plus a field for
   everything owned by the host framework, and compute_ensemble /
   get_energy_forces are state transformers that may fail, returning the
   partially mutated state on failure (Python mutates the object in
   place, so an exception leaves the mutations made so far).  Each run
   also yields the list of mutation events in execution order.
-/

namespace HeliumSCHA

/-! ### Part 1: the module top level -/

/-- Kind of a logical source line: an opener ends with a colon and opens an
indented suite (try, except, if, ...); every other statement is plain. -/
inductive PyLineKind
  | opener
  | plain
  deriving DecidableEq, Repr

/-- A logical source line of the Python module: its indentation (number of
leading spaces) and its kind. -/
structure PyLine where
  indent : Nat
  kind : PyLineKind
  deriving DecidableEq, Repr

/-- Pop the indentation stack down to level i.  Returns none when i is not
a level on the stack (CPython: unindent does not match any outer
indentation level). -/
def popTo : List Nat → Nat → Option (List Nat)
  | [], _ => none
  | top :: rest, i =>
    if i = top then some (top :: rest)
    else if top < i then none
    else popTo rest i

/-- Walk a block of logical lines with the CPython tokenizer and parser
indentation discipline.  The stack holds the open indentation levels and
prevOpens records whether the previous line opened a suite:
after an opener the next line must be strictly more indented; otherwise
the line must sit at the current level or dedent to an enclosing level. -/
def checkLines : List Nat → Bool → List PyLine → Bool
  | _, _, [] => true
  | stack, prevOpens, l :: ls =>
    let top := stack.headD 0
    if prevOpens then
      if top < l.indent then
        checkLines (l.indent :: stack) (l.kind == PyLineKind.opener) ls
      else
        false
    else if l.indent = top then
      checkLines stack (l.kind == PyLineKind.opener) ls
    else if top < l.indent then
      false
    else
      match popTo stack l.indent with
      | some stack2 => checkLines stack2 (l.kind == PyLineKind.opener) ls
      | none => false

/-- A block of logical lines obeys the CPython indentation rules when the
walk starting at level 0 after a non-opener accepts it. -/
def pythonIndentOk (ls : List PyLine) : Bool :=
  checkLines [0] false ls

/-- The logical lines of the try/except block at the top of
helium_ensemble.py (source lines 5-24), with their exact indentation;
comment lines and the continuation lines of the two-line include calls
are folded away, as the tokenizer does. -/
def moduleTryLines : List PyLine := [
  ⟨0, PyLineKind.opener⟩,   -- try:
  ⟨4, PyLineKind.plain⟩,    -- import julia
  ⟨7, PyLineKind.opener⟩,   -- try:
  ⟨11, PyLineKind.plain⟩,   -- from julia.api import Julia
  ⟨11, PyLineKind.plain⟩,   -- jl = Julia(compiled_modules=False)
  ⟨11, PyLineKind.plain⟩,   -- import julia.Main
  ⟨11, PyLineKind.plain⟩,   -- julia.Main.include(os.path.join(...))
  ⟨11, PyLineKind.plain⟩,   -- __JULIA_EXT__ = True
  ⟨7, PyLineKind.opener⟩,   -- except:
  ⟨11, PyLineKind.plain⟩,   -- julia.install()
  ⟨11, PyLineKind.opener⟩,  -- try:
  ⟨15, PyLineKind.plain⟩,   -- julia.Main.include(os.path.join(...))
  ⟨15, PyLineKind.plain⟩,   -- __JULIA_EXT__ = True
  ⟨11, PyLineKind.opener⟩,  -- except Exception as e:
  ⟨15, PyLineKind.plain⟩,   -- warnings.warn(...)
  ⟨3, PyLineKind.opener⟩,   -- except Exception as e:
  ⟨7, PyLineKind.plain⟩]    -- warnings.warn(...)

/-- The module names bound at the top level of helium_ensemble.py by its
unconditional import statements (source lines 1-3).  Neither warnings
nor os appears, although line 11, 18 and 22-24 use os.path.join,
os.path.dirname and warnings.warn. -/
def topLevelImportedModules : List String :=
  ["cellconstructor", "cellconstructor.Phonons", "numpy", "sscha",
   "sscha.Ensemble"]

/-- Does the top level of the module bind the given module name? -/
def moduleBinds (m : String) : Bool :=
  topLevelImportedModules.contains m

/-- Errors a Python import of the module can surface. -/
inductive PyError
  | indentationError   -- raised while compiling the file, before execution
  | nameError          -- an unbound name was evaluated
  deriving DecidableEq, Repr

/-- The environment a process imports the module in: whether the julia
package is importable and whether including compute_potential.jl would
succeed. -/
structure PyEnv where
  juliaImportable : Bool
  bridgeLoads : Bool
  deriving DecidableEq, Repr

/-- Outcome of importing the module: ok with a flag recording whether the
degraded-mode warning was emitted, or an uncaught error. -/
inductive ImportOutcome
  | ok (degradedWarning : Bool)
  | error (e : PyError)
  deriving DecidableEq, Repr

/-- Execution of the bridge-load block as written, supposing it had
compiled: if import julia fails, the outer handler runs warnings.warn,
an unbound name; if import julia succeeds, the include call first
evaluates os.path.join, an unbound name, whose NameError is caught by the
bare except, after which the retried include hits the same unbound os and
the handler chain ends in warnings.warn, again unbound.  Every path that
needs warnings or os checks moduleBinds first, exactly as the interpreter
would resolve the name. -/
def runBridgeLoad (env : PyEnv) : ImportOutcome :=
  if env.juliaImportable then
    if moduleBinds "os" then
      if env.bridgeLoads then ImportOutcome.ok false
      else if moduleBinds "warnings" then ImportOutcome.ok true
      else ImportOutcome.error PyError.nameError
    else
      if moduleBinds "warnings" then ImportOutcome.ok true
      else ImportOutcome.error PyError.nameError
  else
    if moduleBinds "warnings" then ImportOutcome.ok true
    else ImportOutcome.error PyError.nameError

/-- Importing helium_ensemble: Python first compiles the whole file; the
file is executed only when it passes the indentation rules, otherwise
the importing process raises an IndentationError before any statement
of the module runs. -/
def importModule (env : PyEnv) : ImportOutcome :=
  if pythonIndentOk moduleTryLines then runBridgeLoad env
  else ImportOutcome.error PyError.indentationError

/-! ### Part 2: the HeliumEnsemble class -/

/-- The ensemble state seen by the adapter (sscha.Ensemble.Ensemble is
external; these are the fields helium_ensemble.py reads or writes, plus
one field standing for everything else the framework owns).  Cfg is the
type of one atomic configuration, E of one energy scalar, F of one
per-configuration force block, K of the framework-owned remainder. -/
structure Ensemble (Cfg E F K : Type) where
  xats : List Cfg
  energies : List E
  forces : List F
  force_computed : List Bool
  has_stress : Bool
  other : K
  deriving DecidableEq, Repr

/-- Errors observable from a compute_ensemble call: the exception of the
kernel call itself (payload carried unmodified), or the ValueError numpy
raises when a slice assignment receives a sequence of the wrong length. -/
inductive ComputeErr (ε : Type)
  | kernel (e : ε)
  | broadcast
  deriving DecidableEq, Repr

/-- The mutation events of one compute_ensemble run, in execution order. -/
inductive Ev
  | setHasStress
  | kernelCall
  | setForceComputed
  | copyForces
  | copyEnergies
  | callInit
  deriving DecidableEq, Repr

section Adapter

variable {Cfg E F K A ε : Type}

/-- numpy slice assignment of the whole leading axis, dst[:] = src (and
dst[:, :, :] = src for the force blocks): a source of the same length is
copied entry by entry; a length-1 source is broadcast, filling every slot
of dst with its single entry; any other length cannot be broadcast and
raises ValueError, modelled by none. -/
def sliceAssign {α : Type} (dst src : List α) : Option (List α) :=
  if src.length = dst.length then some src
  else
    match src with
    | [x] => some (dst.map fun _ => x)
    | _ => none

/-- HeliumEnsemble.compute_ensemble (source lines 30-41), as a state
transformer.  The kernel argument is julia.Main.compute_ensemble_py; the
init argument is modelled from the spec: the generic post-update
initialization hook of the external framework (sscha.Ensemble.init, not
in this repository), which per the spec performs the framework bookkeeping,
so it acts on the framework-owned field.  args models the ignored
*args/**kwargs of the Python signature.  Python mutates self in place, so
on an exception the partially mutated state is returned alongside the
error.  The second component is the event trace.  Source order:
set has_stress to False; call the kernel on xats; assign True into every
slot of force_computed; slice-assign forces; slice-assign energies; call
init.  The two slice assignments follow the numpy semantics of
sliceAssign: equal length copies, length 1 broadcasts, and every other
length raises. -/
def compute_ensemble (kernel : List Cfg → Except ε (List E × List F))
    (init : K → K) (args : List A) (s : Ensemble Cfg E F K) :
    Except (ComputeErr ε × Ensemble Cfg E F K) (Ensemble Cfg E F K) × List Ev :=
  let s1 := { s with has_stress := false }
  match kernel s1.xats with
  | Except.error e =>
    (Except.error (ComputeErr.kernel e, s1), [Ev.setHasStress, Ev.kernelCall])
  | Except.ok (energies, forces) =>
    let s2 := { s1 with force_computed := s1.force_computed.map fun _ => true }
    match sliceAssign s2.forces forces with
    | none =>
      (Except.error (ComputeErr.broadcast, s2),
       [Ev.setHasStress, Ev.kernelCall, Ev.setForceComputed, Ev.copyForces])
    | some newForces =>
      let s3 := { s2 with forces := newForces }
      match sliceAssign s3.energies energies with
      | none =>
        (Except.error (ComputeErr.broadcast, s3),
         [Ev.setHasStress, Ev.kernelCall, Ev.setForceComputed,
          Ev.copyForces, Ev.copyEnergies])
      | some newEnergies =>
        let s4 := { s3 with energies := newEnergies }
        let s5 := { s4 with other := init s4.other }
        (Except.ok s5,
         [Ev.setHasStress, Ev.kernelCall, Ev.setForceComputed,
          Ev.copyForces, Ev.copyEnergies, Ev.callInit])

/-- HeliumEnsemble.get_energy_forces (source lines 43-44): it calls
self.compute_ensemble() with no arguments, discarding its own. -/
def get_energy_forces (kernel : List Cfg → Except ε (List E × List F))
    (init : K → K) (argd : List A) (s : Ensemble Cfg E F K) :
    Except (ComputeErr ε × Ensemble Cfg E F K) (Ensemble Cfg E F K) × List Ev :=
  compute_ensemble kernel init ([] : List A) s

/-- The ensemble state after a call, whether it returned or raised (on a
raise the object keeps the mutations made so far). -/
def resState : Except (ComputeErr ε × Ensemble Cfg E F K) (Ensemble Cfg E F K) →
    Ensemble Cfg E F K
  | Except.ok t => t
  | Except.error p => p.2

/-- Did the call return normally? -/
def resOk : Except (ComputeErr ε × Ensemble Cfg E F K) (Ensemble Cfg E F K) → Bool
  | Except.ok _ => true
  | Except.error _ => false

/-- Modelled from the spec: when the kernel bridge failed to initialize,
the lookup of julia.Main.compute_ensemble_py raises an
unavailable-dependency error at the call site; the kernel seen by
compute_ensemble is then the one that raises err on every input. -/
def unavailableKernel (err : ε) : List Cfg → Except ε (List E × List F) :=
  fun _ => Except.error err

end Adapter

/-! ### Concrete fixtures used by the witnesses -/

/-- Fixture state: two configurations, stale arrays, stress flag set. -/
def sFix : Ensemble Nat Nat Nat Nat :=
  ⟨[1, 2], [5, 6], [7, 8], [false, false], true, 9⟩

/-- Fixture kernel returning one energy and one force block per
configuration. -/
def kFix : List Nat → Except Nat (List Nat × List Nat) :=
  fun xs => Except.ok (xs.map (fun x => x + 10), xs.map (fun x => 2 * x))

/-- Fixture kernel that raises with payload 42. -/
def kRaise : List Nat → Except Nat (List Nat × List Nat) :=
  fun _ => Except.error 42

/-- Fixture kernel returning three force blocks for two configurations: a
shape numpy cannot broadcast into the length-2 force array. -/
def kLongForces : List Nat → Except Nat (List Nat × List Nat) :=
  fun xs => Except.ok (xs.map (fun x => x + 10), [0, 1, 2])

/-- Fixture kernel returning aligned forces but three energies for two
configurations: the force copy succeeds, the energy copy raises. -/
def kLongEnergies : List Nat → Except Nat (List Nat × List Nat) :=
  fun xs => Except.ok ([0, 1, 2], xs.map (fun x => 2 * x))

/-- Fixture kernel returning aligned forces but a single energy: numpy
broadcasts it into every slot of the energy array and the run returns
normally. -/
def kOneEnergy : List Nat → Except Nat (List Nat × List Nat) :=
  fun xs => Except.ok ([0], xs.map (fun x => 2 * x))

/-- The state a successful run of the fixture kernel on sFix produces. -/
def tFix : Ensemble Nat Nat Nat Nat :=
  ⟨[1, 2], [11, 12], [2, 4], [true, true], false, 9⟩

/-- The step order claim C4 asserts, rendered on an event trace: both
array copies precede the marking of the computed flags, and the marking
precedes the init call.  This definition follows the words of the spec,
to be compared with the trace the code produces. -/
def specClaimedOrder (tr : List Ev) : Bool :=
  decide (tr.indexOf Ev.copyForces < tr.indexOf Ev.setForceComputed) &&
  decide (tr.indexOf Ev.copyEnergies < tr.indexOf Ev.setForceComputed) &&
  decide (tr.indexOf Ev.setForceComputed < tr.indexOf Ev.callInit)

/-! ### Evaluation lemmas for the four control paths of compute_ensemble -/

section AdapterLemmas

variable {Cfg E F K A ε : Type}
variable {kernel : List Cfg → Except ε (List E × List F)} {init : K → K}
variable {args : List A} {s t : Ensemble Cfg E F K}

theorem compute_kernel_error_eval {e : ε}
    (hk : kernel s.xats = Except.error e) :
    compute_ensemble kernel init args s =
      (Except.error (ComputeErr.kernel e, { s with has_stress := false }),
       [Ev.setHasStress, Ev.kernelCall]) := by
  simp only [compute_ensemble]
  rw [show ({ s with has_stress := false } : Ensemble Cfg E F K).xats = s.xats
        from rfl, hk]

theorem compute_ok_eval {es newEs : List E} {fs newFs : List F}
    (hk : kernel s.xats = Except.ok (es, fs))
    (hf : sliceAssign s.forces fs = some newFs)
    (he : sliceAssign s.energies es = some newEs) :
    compute_ensemble kernel init args s =
      (Except.ok ⟨s.xats, newEs, newFs, s.force_computed.map fun _ => true,
                  false, init s.other⟩,
       [Ev.setHasStress, Ev.kernelCall, Ev.setForceComputed,
        Ev.copyForces, Ev.copyEnergies, Ev.callInit]) := by
  simp only [compute_ensemble]
  rw [show ({ s with has_stress := false } : Ensemble Cfg E F K).xats = s.xats
        from rfl, hk]
  simp [hf, he]

theorem compute_forces_raise_eval {es : List E} {fs : List F}
    (hk : kernel s.xats = Except.ok (es, fs))
    (hf : sliceAssign s.forces fs = none) :
    compute_ensemble kernel init args s =
      (Except.error (ComputeErr.broadcast,
        ⟨s.xats, s.energies, s.forces, s.force_computed.map fun _ => true,
         false, s.other⟩),
       [Ev.setHasStress, Ev.kernelCall, Ev.setForceComputed, Ev.copyForces]) := by
  simp only [compute_ensemble]
  rw [show ({ s with has_stress := false } : Ensemble Cfg E F K).xats = s.xats
        from rfl, hk]
  simp [hf]

theorem compute_energies_raise_eval {es : List E} {fs newFs : List F}
    (hk : kernel s.xats = Except.ok (es, fs))
    (hf : sliceAssign s.forces fs = some newFs)
    (he : sliceAssign s.energies es = none) :
    compute_ensemble kernel init args s =
      (Except.error (ComputeErr.broadcast,
        ⟨s.xats, s.energies, newFs, s.force_computed.map fun _ => true,
         false, s.other⟩),
       [Ev.setHasStress, Ev.kernelCall, Ev.setForceComputed,
        Ev.copyForces, Ev.copyEnergies]) := by
  simp only [compute_ensemble]
  rw [show ({ s with has_stress := false } : Ensemble Cfg E F K).xats = s.xats
        from rfl, hk]
  simp [hf, he]

/-- A slice assignment that does not raise preserves the length of the
destination array: an equal-length source replaces it, a length-1 source
is broadcast into every slot. -/
theorem sliceAssign_length {α : Type} {dst src out : List α}
    (h : sliceAssign dst src = some out) : out.length = dst.length := by
  unfold sliceAssign at h
  by_cases hc : src.length = dst.length
  · rw [if_pos hc] at h
    injection h with h
    exact h ▸ hc
  · rw [if_neg hc] at h
    cases src with
    | nil => simp at h
    | cons x xs =>
      cases xs with
      | nil =>
        injection h with h
        rw [h.symm]
        simp
      | cons y ys => simp at h

/-- A successful run determines the final state: it is the input with the
slice-assigned kernel energies and forces installed, every flag true, the
stress flag cleared, and the init hook applied to the framework-owned
remainder. -/
theorem compute_ok_inv
    (hok : (compute_ensemble kernel init args s).1 = Except.ok t) :
    ∃ es fs newEs newFs, kernel s.xats = Except.ok (es, fs) ∧
      sliceAssign s.forces fs = some newFs ∧
      sliceAssign s.energies es = some newEs ∧
      t = ⟨s.xats, newEs, newFs, s.force_computed.map fun _ => true,
           false, init s.other⟩ := by
  cases hk : kernel s.xats with
  | error e =>
    rw [compute_kernel_error_eval hk] at hok
    exact absurd hok (by simp)
  | ok p =>
    obtain ⟨es, fs⟩ := p
    cases hf : sliceAssign s.forces fs with
    | none =>
      rw [compute_forces_raise_eval hk hf] at hok
      exact absurd hok (by simp)
    | some newFs =>
      cases he : sliceAssign s.energies es with
      | none =>
        rw [compute_energies_raise_eval hk hf he] at hok
        exact absurd hok (by simp)
      | some newEs =>
        rw [compute_ok_eval hk hf he] at hok
        exact ⟨es, fs, newEs, newFs, rfl, hf, he,
               by injection hok with h; exact h.symm⟩

end AdapterLemmas

/-! ### The claims -/

/-- C1: for an ensemble holding N configurations, with its arrays
index-aligned with the configuration list, whenever compute_ensemble
returns, the energy and force arrays hold exactly N populated entries,
every entry of the computed-flags array is true, and the stress flag of
the ensemble is false. -/
theorem c1_compute_populates_all
    {Cfg E F K A ε : Type}
    (kernel : List Cfg → Except ε (List E × List F)) (init : K → K)
    (args : List A) (s t : Ensemble Cfg E F K)
    (hE : s.energies.length = s.xats.length)
    (hF : s.forces.length = s.xats.length)
    (hC : s.force_computed.length = s.xats.length)
    (hok : (compute_ensemble kernel init args s).1 = Except.ok t) :
    t.energies.length = s.xats.length ∧
    t.forces.length = s.xats.length ∧
    t.force_computed.length = s.xats.length ∧
    (∀ b ∈ t.force_computed, b = true) ∧
    t.has_stress = false := by
  obtain ⟨es, fs, newEs, newFs, hk, hf, he, rfl⟩ := compute_ok_inv hok
  refine ⟨(sliceAssign_length he).trans hE, (sliceAssign_length hf).trans hF,
    by simpa using hC, ?_, rfl⟩
  intro b hb
  simp only [List.mem_map] at hb
  obtain ⟨a, _, hab⟩ := hb
  exact hab.symm

/-- Witness for C1 at the concrete fixtures. -/
theorem c1_compute_populates_all_witness :
    tFix.energies.length = sFix.xats.length ∧
    tFix.forces.length = sFix.xats.length ∧
    tFix.force_computed.length = sFix.xats.length ∧
    (∀ b ∈ tFix.force_computed, b = true) ∧
    tFix.has_stress = false :=
  c1_compute_populates_all kFix id ([] : List Nat) sFix tFix rfl rfl rfl rfl

/-- C2: the claim says that for every failure mode of the bridge load the
module finishes importing with a warning.  In the code the import never
finishes in any environment: the file fails the CPython indentation rules,
so every import raises an IndentationError before a single statement of
the module runs. -/
theorem c2_startup_never_imports :
    (∀ env : PyEnv,
      importModule env = ImportOutcome.error PyError.indentationError) ∧
    pythonIndentOk moduleTryLines = false := by
  have h : pythonIndentOk moduleTryLines = false := by decide
  exact ⟨fun env => by simp [importModule, h], h⟩

/-- C3: when the kernel bridge failed to initialize, the kernel lookup
raises at the call site, so compute_ensemble surfaces the
unavailable-dependency error and the energy and force arrays keep their
previous values rather than silently holding zeros or anything else. -/
theorem c3_unavailable_kernel_raises
    {Cfg E F K A ε : Type} (err : ε) (init : K → K) (args : List A)
    (s : Ensemble Cfg E F K) :
    (compute_ensemble (unavailableKernel err) init args s).1 =
      Except.error (ComputeErr.kernel err, { s with has_stress := false }) ∧
    (resState (compute_ensemble (unavailableKernel err) init args s).1).energies
      = s.energies ∧
    (resState (compute_ensemble (unavailableKernel err) init args s).1).forces
      = s.forces := by
  have h : (unavailableKernel err : List Cfg → Except ε (List E × List F))
      s.xats = Except.error err := rfl
  rw [compute_kernel_error_eval h]
  exact ⟨rfl, rfl, rfl⟩

/-- C4 counterexample: the claim orders the array copies before the
marking of the computed flags; the trace of a successful concrete run
does not satisfy that order, because the code assigns True into
force_computed before copying forces and energies. -/
theorem c4_counterexample_copy_after_mark :
    specClaimedOrder (compute_ensemble kFix id ([] : List Nat) sFix).2
      = false := by decide

/-- C4 amended: on every run that returns, the steps happen in the order:
clear the stress flag, call the kernel, mark every configuration
computed, copy the forces, copy the energies, call the init hook. -/
theorem c4_step_order_amended
    {Cfg E F K A ε : Type}
    (kernel : List Cfg → Except ε (List E × List F)) (init : K → K)
    (args : List A) (s : Ensemble Cfg E F K)
    (hok : resOk (compute_ensemble kernel init args s).1 = true) :
    (compute_ensemble kernel init args s).2 =
      [Ev.setHasStress, Ev.kernelCall, Ev.setForceComputed,
       Ev.copyForces, Ev.copyEnergies, Ev.callInit] := by
  cases hk : kernel s.xats with
  | error e =>
    rw [compute_kernel_error_eval hk] at hok
    exact absurd hok (by simp [resOk])
  | ok p =>
    obtain ⟨es, fs⟩ := p
    cases hf : sliceAssign s.forces fs with
    | none =>
      rw [compute_forces_raise_eval hk hf] at hok
      exact absurd hok (by simp [resOk])
    | some newFs =>
      cases he : sliceAssign s.energies es with
      | none =>
        rw [compute_energies_raise_eval hk hf he] at hok
        exact absurd hok (by simp [resOk])
      | some newEs =>
        rw [compute_ok_eval hk hf he]

/-- Witness for the amended C4 at the concrete fixtures. -/
theorem c4_step_order_amended_witness :
    (compute_ensemble kFix id ([] : List Nat) sFix).2 =
      [Ev.setHasStress, Ev.kernelCall, Ev.setForceComputed,
       Ev.copyForces, Ev.copyEnergies, Ev.callInit] :=
  c4_step_order_amended kFix id [] sFix (by decide)

/-- C5: get_energy_forces is a pure forwarding call: for every argument
list it produces exactly the outcome, state and trace of calling
compute_ensemble directly, whatever arguments the latter is handed. -/
theorem c5_get_energy_forces_forwards
    {Cfg E F K A ε : Type}
    (kernel : List Cfg → Except ε (List E × List F)) (init : K → K)
    (argd args : List A) (s : Ensemble Cfg E F K) :
    get_energy_forces kernel init argd s = compute_ensemble kernel init args s :=
  rfl

/-- Frame of one compute_ensemble call: the configuration list is never
written, and the framework-owned remainder changes exactly by the init
hook on a normal return and not at all on a raise. -/
theorem compute_frame_aux
    {Cfg E F K A ε : Type}
    (kernel : List Cfg → Except ε (List E × List F)) (init : K → K)
    (args : List A) (s : Ensemble Cfg E F K) :
    (resState (compute_ensemble kernel init args s).1).xats = s.xats ∧
    (resState (compute_ensemble kernel init args s).1).other =
      (if resOk (compute_ensemble kernel init args s).1 = true then init s.other
       else s.other) := by
  cases hk : kernel s.xats with
  | error e =>
    rw [compute_kernel_error_eval hk]
    exact ⟨rfl, rfl⟩
  | ok p =>
    obtain ⟨es, fs⟩ := p
    cases hf : sliceAssign s.forces fs with
    | none =>
      rw [compute_forces_raise_eval hk hf]
      exact ⟨rfl, rfl⟩
    | some newFs =>
      cases he : sliceAssign s.energies es with
      | none =>
        rw [compute_energies_raise_eval hk hf he]
        exact ⟨rfl, rfl⟩
      | some newEs =>
        rw [compute_ok_eval hk hf he]
        exact ⟨rfl, rfl⟩

/-- C6 counterexample: a kernel returning aligned forces but one single
energy for the two configurations completes normally, because numpy
broadcasts the lone energy into both slots of the energy array; yet the
stored energy at index 1 is some value while the kernel output at index 1
does not exist, so the stored entry is not the kernel output for
configuration 1. -/
theorem c6_counterexample_broadcast_misalignment :
    resOk (compute_ensemble kOneEnergy id ([] : List Nat) sFix).1 = true ∧
    (resState (compute_ensemble kOneEnergy id ([] : List Nat) sFix).1).energies
      = [0, 0] ∧
    (resState (compute_ensemble kOneEnergy id ([] : List Nat) sFix).1).energies[1]?
      = some 0 ∧
    ([0] : List Nat)[1]? = none :=
  ⟨rfl, rfl, rfl, rfl⟩

/-- C6 amended: when the kernel returns one energy and one force block
per configuration, a successful compute_ensemble stores exactly the
kernel output sequences, index-aligned with the configuration sequence
passed to the kernel: entry i of each array is entry i of the
corresponding kernel output.  A length-1 kernel output is instead
broadcast by numpy into every slot, so for such outputs the stored
entries do not correspond to per-configuration kernel entries. -/
theorem c6_alignment_amended
    {Cfg E F K A ε : Type}
    (kernel : List Cfg → Except ε (List E × List F)) (init : K → K)
    (args : List A) (s t : Ensemble Cfg E F K) (es : List E) (fs : List F)
    (hk : kernel s.xats = Except.ok (es, fs))
    (hes : es.length = s.energies.length)
    (hfs : fs.length = s.forces.length)
    (hok : (compute_ensemble kernel init args s).1 = Except.ok t) :
    t.energies = es ∧ t.forces = fs ∧
    ∀ i : Nat, t.energies[i]? = es[i]? ∧ t.forces[i]? = fs[i]? := by
  obtain ⟨es2, fs2, newEs, newFs, hk2, hf, he, rfl⟩ := compute_ok_inv hok
  have h := hk.symm.trans hk2
  injection h with h
  injection h with h1 h2
  subst h1
  subst h2
  unfold sliceAssign at hf he
  rw [if_pos hfs] at hf
  rw [if_pos hes] at he
  injection hf with hf
  injection he with he
  subst hf
  subst he
  exact ⟨rfl, rfl, fun i => ⟨rfl, rfl⟩⟩

/-- Witness for the amended C6 at the concrete fixtures. -/
theorem c6_alignment_amended_witness :
    tFix.energies = [11, 12] ∧ tFix.forces = [2, 4] ∧
    ∀ i : Nat, tFix.energies[i]? = [11, 12][i]? ∧ tFix.forces[i]? = [2, 4][i]? :=
  c6_alignment_amended kFix id ([] : List Nat) sFix tFix [11, 12] [2, 4] rfl rfl
    rfl rfl

/-- C7 counterexample: a successful concrete run changes a field that is
neither the force array, the energy array nor the computed-flags: the
stress flag goes from true to false. -/
theorem c7_counterexample_stress_flag_written :
    sFix.has_stress = true ∧
    resOk (compute_ensemble kFix id ([] : List Nat) sFix).1 = true ∧
    (resState (compute_ensemble kFix id ([] : List Nat) sFix).1).has_stress
      = false :=
  ⟨rfl, rfl, rfl⟩

/-- C7 amended: besides the force and energy arrays and the computed
flags, the adapter also writes the stress flag, and it invokes the init
hook which owns the remaining framework fields; the configuration list is
never written by compute_ensemble or get_energy_forces, and the remaining
framework fields change only through the init hook. -/
theorem c7_frame_amended
    {Cfg E F K A ε : Type}
    (kernel : List Cfg → Except ε (List E × List F)) (init : K → K)
    (args : List A) (s : Ensemble Cfg E F K) :
    (resState (compute_ensemble kernel init args s).1).xats = s.xats ∧
    (resState (compute_ensemble kernel init args s).1).other =
      (if resOk (compute_ensemble kernel init args s).1 = true then init s.other
       else s.other) ∧
    (resState (get_energy_forces kernel init args s).1).xats = s.xats ∧
    (resState (get_energy_forces kernel init args s).1).other =
      (if resOk (get_energy_forces kernel init args s).1 = true then init s.other
       else s.other) := by
  obtain ⟨h1, h2⟩ := compute_frame_aux kernel init args s
  obtain ⟨h3, h4⟩ := compute_frame_aux kernel init ([] : List A) s
  exact ⟨h1, h2, h3, h4⟩

/-- C8: an exception of the kernel call itself is not handled inside
compute_ensemble: the call surfaces the very same error payload, with no
catch, wrap, retry or substitution of results, and no array was written. -/
theorem c8_kernel_error_propagates
    {Cfg E F K A ε : Type}
    (kernel : List Cfg → Except ε (List E × List F)) (init : K → K)
    (args : List A) (s : Ensemble Cfg E F K) (e : ε)
    (hk : kernel s.xats = Except.error e) :
    compute_ensemble kernel init args s =
      (Except.error (ComputeErr.kernel e, { s with has_stress := false }),
       [Ev.setHasStress, Ev.kernelCall]) :=
  compute_kernel_error_eval hk

/-- Witness for C8 at the concrete fixtures. -/
theorem c8_kernel_error_propagates_witness :
    compute_ensemble kRaise id ([] : List Nat) sFix =
      (Except.error (ComputeErr.kernel 42, { sFix with has_stress := false }),
       [Ev.setHasStress, Ev.kernelCall]) :=
  c8_kernel_error_propagates kRaise id [] sFix 42 rfl

/-- C9 counterexample: in an environment where the bridge load fails (the
julia package is not importable), the import does not raise a NameError
from the handler; it raises an IndentationError while the file is being
compiled, before any handler can run. -/
theorem c9_counterexample_error_kind :
    importModule ⟨false, false⟩ = ImportOutcome.error PyError.indentationError ∧
    (importModule ⟨false, false⟩ = ImportOutcome.error PyError.nameError → False) :=
  ⟨by decide, by decide⟩

/-- C9 amended: warnings and os are indeed never imported by the module,
yet the handlers call warnings.warn and the load path calls os.path.join;
but because the except-clause indentation does not match its try, the
module fails the indentation rules and every import raises an
IndentationError at compile time, before any statement runs; so no
NameError and no warning is ever produced, and the degraded-but-importable
state is unreachable.  Had the file compiled, every run of the bridge-load
block would still have ended in an uncaught NameError on the unbound
warnings. -/
theorem c9_amended_import_behavior :
    moduleBinds "warnings" = false ∧
    moduleBinds "os" = false ∧
    pythonIndentOk moduleTryLines = false ∧
    (∀ env : PyEnv,
      importModule env = ImportOutcome.error PyError.indentationError) ∧
    (∀ env : PyEnv,
      runBridgeLoad env = ImportOutcome.error PyError.nameError) := by
  have h : pythonIndentOk moduleTryLines = false := by decide
  refine ⟨by decide, by decide, h, fun env => by simp [importModule, h], ?_⟩
  intro env
  obtain ⟨a, b⟩ := env
  cases a <;> cases b <;> rfl

/-- C10 counterexample: a kernel returning aligned forces but three
energies for the two configurations raises at the energy copy (three
entries cannot be broadcast into two slots), after the force copy already
ran: the run fails, every computed flag is true, but the force array no
longer holds its old values, against the claim that on a copy failure the
force and energy arrays still hold their old values. -/
theorem c10_counterexample_forces_already_new :
    resOk (compute_ensemble kLongEnergies id ([] : List Nat) sFix).1 = false ∧
    (resState (compute_ensemble kLongEnergies id ([] : List Nat) sFix).1).force_computed
      = [true, true] ∧
    sFix.forces = [7, 8] ∧
    (resState (compute_ensemble kLongEnergies id ([] : List Nat) sFix).1).forces
      = [2, 4] :=
  ⟨rfl, rfl, rfl, rfl⟩

/-- C10 amended: compute_ensemble is not atomic on error.  If the kernel
call raises, the stress flag is already cleared while flags and arrays
keep their old values.  If the force copy raises on a result numpy cannot
broadcast, every computed flag is already true while both arrays keep
their old values.  If the force copy succeeds and the energy copy raises,
every computed flag is true and the force array already holds the new
forces while the energy array keeps its old values. -/
theorem c10_partial_mutation_amended
    {Cfg E F K A ε : Type}
    (k1 k2 k3 : List Cfg → Except ε (List E × List F)) (init : K → K)
    (args : List A) (s : Ensemble Cfg E F K) (e : ε)
    (es2 : List E) (fs2 : List F) (es3 : List E) (fs3 newFs3 : List F)
    (hk1 : k1 s.xats = Except.error e)
    (hk2 : k2 s.xats = Except.ok (es2, fs2))
    (hf2 : sliceAssign s.forces fs2 = none)
    (hk3 : k3 s.xats = Except.ok (es3, fs3))
    (hf3 : sliceAssign s.forces fs3 = some newFs3)
    (he3 : sliceAssign s.energies es3 = none) :
    (compute_ensemble k1 init args s).1 =
      Except.error (ComputeErr.kernel e, { s with has_stress := false }) ∧
    (compute_ensemble k2 init args s).1 =
      Except.error (ComputeErr.broadcast,
        ⟨s.xats, s.energies, s.forces, s.force_computed.map fun _ => true,
         false, s.other⟩) ∧
    (compute_ensemble k3 init args s).1 =
      Except.error (ComputeErr.broadcast,
        ⟨s.xats, s.energies, newFs3, s.force_computed.map fun _ => true,
         false, s.other⟩) := by
  refine ⟨?_, ?_, ?_⟩
  · rw [compute_kernel_error_eval hk1]
  · rw [compute_forces_raise_eval hk2 hf2]
  · rw [compute_energies_raise_eval hk3 hf3 he3]

/-- Witness for the amended C10 at the concrete fixtures. -/
theorem c10_partial_mutation_amended_witness :
    (compute_ensemble kRaise id ([] : List Nat) sFix).1 =
      Except.error (ComputeErr.kernel 42, { sFix with has_stress := false }) ∧
    (compute_ensemble kLongForces id ([] : List Nat) sFix).1 =
      Except.error (ComputeErr.broadcast,
        ⟨sFix.xats, sFix.energies, sFix.forces,
         sFix.force_computed.map fun _ => true, false, sFix.other⟩) ∧
    (compute_ensemble kLongEnergies id ([] : List Nat) sFix).1 =
      Except.error (ComputeErr.broadcast,
        ⟨sFix.xats, sFix.energies, [2, 4],
         sFix.force_computed.map fun _ => true, false, sFix.other⟩) :=
  c10_partial_mutation_amended kRaise kLongForces kLongEnergies id [] sFix 42
    [11, 12] [0, 1, 2] [0, 1, 2] [2, 4] [2, 4] rfl rfl rfl rfl rfl rfl

end HeliumSCHA
